import Mathlib

/-!
Shallow embedding of the Groth16 trusted-setup ceremony coordinator from
`manta-trusted-setup/src/groth16/ceremony/coordinator.rs` and the offline
verifier from `manta-trusted-setup/src/bin/groth16_phase2_verifier.rs`.

The Rust code is generic over a `Ceremony` trait supplying the challenge
hash, the pairing-based verification checks and the signature scheme; the
embedding mirrors this with a `Ceremony` structure of abstract functions
over `Nat` carriers (identifiers, states, proofs, challenges, keys and
signatures are all opaque to the coordinator).  Stateful Rust methods
become explicit state-passing functions.
-/

namespace TrustedSetup

/-- Error type mirroring `CeremonyError` from the coordinator module,
with the `Unexpected` variants flattened. -/
inductive CeremonyError where
  | NotRegistered
  | AlreadyContributed
  | InvalidSignature (expected_nonce : Nat)
  | NotYourTurn
  | Timeout
  | BadRequest
  | UnexpectedAllNoncesUsed
  | UnexpectedMissingRegisteredParticipant
  | UnexpectedSerialization
deriving DecidableEq, Repr

/-- Participant record: verifying key, nonce, priority level and the
contributed flag, as in the spec data model and the `Participant` trait
methods used by the coordinator (`verifying_key`, `nonce`,
`increment_nonce`, `priority`, `reduce_priority`, `has_contributed`,
`set_contributed`). -/
structure Participant where
  verifyingKey : Nat
  nonce : Nat
  priority : Nat
  contributed : Bool
deriving DecidableEq, Repr

/-- Registry mapping participant identifiers to records (the Rust `Registry`
trait with `get`/`get_mut`), modelled as a total function into `Option`. -/
def Registry : Type := Nat → Option Participant

/-- Point update of a registry, the effect of mutating through `get_mut`. -/
def rset (r : Registry) (id : Nat) (p : Participant) : Registry :=
  fun j => if j = id then some p else r j

/-- Abstract ceremony capabilities, mirroring the `C : Ceremony` trait
parameter of the Rust code: the transcript challenge hash `C::challenge`,
the pairing-equality checks performed by `verify_transform` (opaque to the
coordinator), and signature verification over `(nonce, payload)`. -/
structure Ceremony where
  challenge : Nat → Nat → Nat → Nat → Nat
  verifyCheck : Nat → Nat → Nat → Nat → Bool
  sigOk : Nat → Nat → Nat → Nat → Bool

/-- Largest `u64` value; a nonce equal to it is saturated. -/
def U64MAX : Nat := 2 ^ 64 - 1

/-- Modelled from the spec: `Nonce::is_valid` for `u64` nonces (the
`ceremony::signature` module is not under `src/`); per §4.5 a nonce is
invalid exactly when saturated. -/
def nonceIsValid (n : Nat) : Bool := n < U64MAX

/-- Modelled from the spec: `Nonce::increment` for `u64` nonces, a
saturating increment. -/
def incrementNonce (n : Nat) : Nat := min (n + 1) U64MAX

/-- A signed message (`SignedMessage { identifier, payload, signature }`);
the nonce the signature covers is the one stored by the coordinator. -/
structure SignedMessage where
  identifier : Nat
  payload : Nat
  sig : Nat
deriving DecidableEq, Repr

/-- Modelled from the spec: `verify_transform` (the `groth16::mpc` module
is not under `src/`); per §4.2 it performs the subgroup, non-degeneracy and
pairing checks (abstracted into `Ceremony.verifyCheck`) and on success
returns the next challenge, computed by the transcript hash, together with
the submitted next state. -/
def verify_transform (cer : Ceremony) (c s s' p : Nat) : Option (Nat × Nat) :=
  if cer.verifyCheck c s s' p then some (cer.challenge c s s' p, s') else none

/-- CoordinatorRegistry::preprocess_request (also Coordinator::preprocess_request,
a verbatim copy): look up the participant, reject if already contributed,
reject a saturated nonce, verify the signature over the stored nonce, and
only then increment the stored nonce and return the priority. -/
def preprocess_request (cer : Ceremony) (reg : Registry) (msg : SignedMessage) :
    Except CeremonyError Nat × Registry :=
  match reg msg.identifier with
  | none => (Except.error CeremonyError.NotRegistered, reg)
  | some p =>
    if p.contributed then (Except.error CeremonyError.AlreadyContributed, reg)
    else if ¬ nonceIsValid p.nonce then
      (Except.error CeremonyError.UnexpectedAllNoncesUsed, reg)
    else if ¬ cer.sigOk p.nonce p.verifyingKey msg.payload msg.sig then
      (Except.error (CeremonyError.InvalidSignature p.nonce), reg)
    else
      (Except.ok p.priority,
        rset reg msg.identifier { p with nonce := incrementNonce p.nonce })

/-- Multi-level FIFO queue (`Queue<C, LEVEL_COUNT>`), one FIFO bucket per
priority level; `pop_front` drains the first non-empty bucket. -/
def PQueue : Type := List (List Nat)

/-- Auxiliary recursion for `pop_front`. -/
def popFrontAux : List (List Nat) → Option (Nat × List (List Nat))
  | [] => none
  | [] :: rest =>
    match popFrontAux rest with
    | none => none
    | some (x, rest') => some (x, [] :: rest')
  | (x :: xs) :: rest => some (x, xs :: rest)

/-- Queue `pop_front`: remove and return the head of the first non-empty
bucket, together with the remaining queue. -/
def popFront (q : PQueue) : Option Nat × PQueue :=
  match popFrontAux q with
  | none => (none, q)
  | some (x, q') => (some x, q')

/-- Modelled from the spec: `Participant::reduce_priority` (the trait lives
outside `src/`); per §4.4 it reduces the priority by one level with floor
zero. -/
def reducePriority (p : Nat) : Nat := p - 1

/-- The timed participant lock `Timed<Option<C::Identifier>>`: the held
value plus the wall-clock instant of the last `set`/`mutate`.  Modelled
from the spec for `manta_util::time::lock::Timed`, which is outside
`src/`: §3 gives the lock an acquisition timestamp and §4.4 defines
expiry as `now - acquired_at > timeout`. -/
structure TimedLock where
  value : Option Nat
  time : Nat
deriving DecidableEq, Repr

/-- Lock expiry check `Timed::has_expired(timeout)` at wall-clock `now`. -/
def hasExpired (l : TimedLock) (timeout now : Nat) : Bool :=
  timeout < now - l.time

/-- The `LockQueue` structure: participant queue plus timed lock. -/
structure LockQueue where
  queue : PQueue
  lock : TimedLock

/-- LockQueue::check_lock_update_errors: `Timeout` when the lock holds the
requester and has expired, `NotYourTurn` when it holds someone else, and
otherwise success (in particular when the lock value is `None`). -/
def checkLockUpdErrors (hasExp : Bool) (lhs : Option Nat) (rhs : Nat) :
    Except CeremonyError Unit :=
  match lhs with
  | some l =>
    if l = rhs ∧ hasExp then Except.error CeremonyError.Timeout
    else if l ≠ rhs then Except.error CeremonyError.NotYourTurn
    else Except.ok ()
  | none => Except.ok ()

/-- LockQueue::update_expired_lock: reduce the priority of the current
holder (when registered), replace the lock contents with the front of the
queue, and return the previous holder.  `Timed::mutate` stamps the current
time. -/
def updateExpiredLock (lq : LockQueue) (reg : Registry) (now : Nat) :
    Option Nat × LockQueue × Registry :=
  let reg' : Registry :=
    match lq.lock.value with
    | some id =>
      match reg id with
      | some p => rset reg id { p with priority := reducePriority p.priority }
      | none => reg
    | none => reg
  let pq := popFront lq.queue
  (lq.lock.value, { queue := pq.2, lock := { value := pq.1, time := now } }, reg')

/-- LockQueue::check_lock: if the lock has expired, rotate it via
`update_expired_lock` and check the request against the PREVIOUS holder;
otherwise check against the current holder without mutating anything. -/
def checkLock (lq : LockQueue) (pid : Nat) (reg : Registry)
    (timeLimit now : Nat) : Except CeremonyError Unit × LockQueue × Registry :=
  if hasExpired lq.lock timeLimit now then
    let r := updateExpiredLock lq reg now
    (checkLockUpdErrors true r.1 pid, r.2.1, r.2.2)
  else
    (checkLockUpdErrors false lq.lock.value pid, lq, reg)

/-- LockQueue::update: check the lock, then set the lock to the new front
of the queue, then mark the participant as contributed (failing with
`MissingRegisteredParticipant` when the registry has no record). -/
def LockQueue.update (lq : LockQueue) (pid : Nat) (reg : Registry)
    (timeLimit now : Nat) : Except CeremonyError Unit × LockQueue × Registry :=
  match checkLock lq pid reg timeLimit now with
  | (Except.error e, lq', reg') => (Except.error e, lq', reg')
  | (Except.ok _, lq', reg') =>
    let pq := popFront lq'.queue
    let lq'' : LockQueue := { queue := pq.2, lock := { value := pq.1, time := now } }
    match reg' pid with
    | some p => (Except.ok (), lq'', rset reg' pid { p with contributed := true })
    | none =>
      (Except.error CeremonyError.UnexpectedMissingRegisteredParticipant, lq'', reg')

/-- State, challenge and latest proof for all circuits
(`StateChallengeProof<C, CIRCUIT_COUNT>`); the boxed arrays become lists
of length `CIRCUIT_COUNT`. -/
structure StateChallengeProof where
  state : List Nat
  challenge : List Nat
  latest_proof : Option (List Nat)
deriving DecidableEq, Repr

/-- The per-circuit loop of `StateChallengeProof::update` and
`Coordinator::update`: for each circuit in order, compute the next
challenge from the OLD challenge and state together with the submitted
state and proof, then run `verify_transform`; a failure maps to
`BadRequest` and aborts the loop, leaving this and later entries
untouched (earlier entries stay overwritten).  Returns the error, the
updated challenge list and the updated state list. -/
def updateLoop (cer : Ceremony) :
    List Nat → List Nat → List Nat → List Nat →
      Option CeremonyError × List Nat × List Nat
  | c :: cs, s :: ss, s' :: ss', p :: ps =>
    let nextChallenge := cer.challenge c s s' p
    match verify_transform cer c s s' p with
    | none => (some CeremonyError.BadRequest, c :: cs, s :: ss)
    | some r =>
      let rec' := updateLoop cer cs ss ss' ps
      (rec'.1, nextChallenge :: rec'.2.1, r.2 :: rec'.2.2)
  | cs, ss, _, _ => (none, cs, ss)

/-- StateChallengeProof::update: run the per-circuit loop; on success also
record the submitted proofs as `latest_proof`.  On failure the partially
overwritten state and challenge arrays persist. -/
def StateChallengeProof.update (cer : Ceremony) (sclp : StateChallengeProof)
    (subStates subProofs : List Nat) :
    Except CeremonyError Unit × StateChallengeProof :=
  let r := updateLoop cer sclp.challenge sclp.state subStates subProofs
  match r.1 with
  | some e =>
    (Except.error e, { sclp with challenge := r.2.1, state := r.2.2 })
  | none =>
    (Except.ok (),
      { state := r.2.2, challenge := r.2.1, latest_proof := some subProofs })

/-- The coordinator state: lock queue, registry, state-challenge-proof,
the contribution time limit from the metadata, and the round counter. -/
structure Coordinator where
  lockQueue : LockQueue
  registry : Registry
  sclp : StateChallengeProof
  timeLimit : Nat
  round : Nat

/-- Coordinator::update: check the lock, run the verification loop over
all circuits (any failure returns `BadRequest` immediately, BEFORE the
lock is touched again), then set `latest_proof`, set the lock to the next
queue front, mark the participant as contributed, and increment the round
counter. -/
def Coordinator.update (cer : Ceremony) (co : Coordinator) (pid : Nat)
    (subStates subProofs : List Nat) (now : Nat) :
    Except CeremonyError Unit × Coordinator :=
  match checkLock co.lockQueue pid co.registry co.timeLimit now with
  | (Except.error e, lq', reg') =>
    (Except.error e, { co with lockQueue := lq', registry := reg' })
  | (Except.ok _, lq', reg') =>
    let r := updateLoop cer co.sclp.challenge co.sclp.state subStates subProofs
    match r.1 with
    | some e =>
      (Except.error e,
        { co with lockQueue := lq', registry := reg',
                  sclp := { co.sclp with challenge := r.2.1, state := r.2.2 } })
    | none =>
      let sclp' : StateChallengeProof :=
        { state := r.2.2, challenge := r.2.1, latest_proof := some subProofs }
      let pq := popFront lq'.queue
      let lq'' : LockQueue := { queue := pq.2, lock := { value := pq.1, time := now } }
      match reg' pid with
      | some p =>
        (Except.ok (),
          { co with lockQueue := lq'', registry := rset reg' pid { p with contributed := true },
                    sclp := sclp', round := co.round + 1 })
      | none =>
        (Except.error CeremonyError.UnexpectedMissingRegisteredParticipant,
          { co with lockQueue := lq'', registry := reg', sclp := sclp' })

/-- Modelled from the spec: the server's contribution endpoint (the server
module is not under `src/`) first preprocesses the signed request (§4.5
steps 1-5) and then calls `Coordinator::update` (steps 6-10). -/
def processContribution (cer : Ceremony) (co : Coordinator)
    (msg : SignedMessage) (subStates subProofs : List Nat) (now : Nat) :
    Except CeremonyError Unit × Coordinator :=
  match preprocess_request cer co.registry msg with
  | (Except.error e, reg') => (Except.error e, { co with registry := reg' })
  | (Except.ok _, reg') =>
    Coordinator.update cer { co with registry := reg' } msg.identifier
      subStates subProofs now

/-- Result of reading one transcript artifact file: present and well
formed, present but corrupt, or missing. -/
inductive FileRead where
  | ok (v : Nat)
  | corrupt
  | missing
deriving DecidableEq, Repr

/-- Modelled from the spec: `deserialize_from_file` (the `ceremony::util`
module is not under `src/`) returns `Err` both for a missing file and for
a file that fails to deserialize, so the verifier observes only an
`Option`. -/
def FileRead.des : FileRead → Option Nat
  | FileRead.ok v => some v
  | _ => none

/-- One circuit's transcript directory: for each round number, the state,
challenge and proof artifacts. -/
structure CircuitFiles where
  stateFile : Nat → FileRead
  challengeFile : Nat → FileRead
  proofFile : Nat → FileRead

/-- The round loop of `verify_ceremony` in the verifier binary, with
explicit fuel for termination.  Each iteration increments the round and
tries to load `proof_round` and `state_round`; when BOTH load, it runs
`verify_transform` (a failure aborts the whole run with `BadRequest`);
when EITHER fails to load — corrupt or missing alike — the loop ends and
keys are extracted from the last verified state.  Returns `none` when the
fuel runs out, otherwise the verifier's result: the final state handed to
`extract_keys` together with the round at which the loop stopped. -/
def verifyLoop (cer : Ceremony) (files : CircuitFiles) :
    Nat → Nat → Nat → Nat → Option (Except CeremonyError (Nat × Nat))
  | 0, _, _, _ => none
  | fuel + 1, chal, st, round =>
    let round' := round + 1
    match (files.proofFile round').des, (files.stateFile round').des with
    | some proof, some nextState =>
      match verify_transform cer chal st nextState proof with
      | none => some (Except.error CeremonyError.BadRequest)
      | some r => verifyLoop cer files fuel r.1 r.2 round'
    | _, _ => some (Except.ok (st, round'))

/-- The per-circuit body of `verify_ceremony`: load the starting round's
state and challenge (a load failure aborts with a `Serialization` error),
then run the round loop. -/
def verify_ceremony_circuit (cer : Ceremony) (files : CircuitFiles)
    (start fuel : Nat) : Option (Except CeremonyError (Nat × Nat)) :=
  match (files.stateFile start).des with
  | none => some (Except.error CeremonyError.UnexpectedSerialization)
  | some st =>
    match (files.challengeFile start).des with
    | none => some (Except.error CeremonyError.UnexpectedSerialization)
    | some chal => verifyLoop cer files fuel chal st start

/-- Boolean success test for `Except`. -/
def exceptOk {α : Type} : Except CeremonyError α → Bool
  | Except.ok _ => true
  | Except.error _ => false

/-- Replay a list of signed requests through `preprocess_request`,
threading the registry (the coordinator preprocesses every request this
way on all three endpoints). -/
def processRequests (cer : Ceremony) : Registry → List SignedMessage → Registry
  | reg, [] => reg
  | reg, m :: ms => processRequests cer (preprocess_request cer reg m).2 ms

/-- Number of requests from `pid` in the trace whose preprocessing
succeeded, i.e. whose signature was validated against the stored nonce. -/
def validatedCount (cer : Ceremony) : Registry → List SignedMessage → Nat → Nat
  | _, [], _ => 0
  | reg, m :: ms, pid =>
    (if m.identifier = pid ∧ exceptOk (preprocess_request cer reg m).1 then 1 else 0)
      + validatedCount cer (preprocess_request cer reg m).2 ms pid

/-- Pointwise combination of four lists, used to express the new challenge
array produced by the update loop. -/
def map4 {α : Type} (f : Nat → Nat → Nat → Nat → α) :
    List Nat → List Nat → List Nat → List Nat → List α
  | x :: xs, y :: ys, z :: zs, w :: ws => f x y z w :: map4 f xs ys zs ws
  | _, _, _, _ => []

/-- Concrete ceremony instance for witnesses: the verification check
passes exactly when the proof equals the submitted state plus seven, and
a signature is valid exactly when it equals a fixed combination of the
stored nonce, the verifying key and the payload. -/
def cerT : Ceremony where
  challenge := fun a b c d => a * 1000000 + b * 10000 + c * 100 + d + 1
  verifyCheck := fun _ _ s' p => decide (p = s' + 7)
  sigOk := fun n k pl sg => decide (sg = n * 31 + k * 17 + pl)

/-- Concrete registry for witnesses: participants 1 and 2, both fresh. -/
def regT : Registry := fun j =>
  if j = 1 then some { verifyingKey := 5, nonce := 0, priority := 1, contributed := false }
  else if j = 2 then some { verifyingKey := 6, nonce := 0, priority := 1, contributed := false }
  else none

/-- Concrete coordinator for witnesses: participant 1 holds the lock
(acquired at time 0), participant 2 waits in the queue, one circuit with
state 10 and challenge 20, time limit 10, round 0. -/
def coT : Coordinator where
  lockQueue := { queue := [[2]], lock := { value := some 1, time := 0 } }
  registry := regT
  sclp := { state := [10], challenge := [20], latest_proof := none }
  timeLimit := 10
  round := 0

/-- A correctly signed contribution message from participant 1 (nonce 0,
verifying key 5, payload 0, so the expected signature is 85). -/
def msgT : SignedMessage where
  identifier := 1
  payload := 0
  sig := 85

/-- Additional registry for witnesses: participant 1 has already
contributed. -/
def regC : Registry := fun j =>
  if j = 1 then some { verifyingKey := 5, nonce := 2, priority := 1, contributed := true }
  else none

/-- Additional registry for witnesses: participant 1 has a saturated
nonce. -/
def regSat : Registry := fun j =>
  if j = 1 then some { verifyingKey := 5, nonce := U64MAX, priority := 1, contributed := false }
  else none

/-- Concrete transcript files for witnesses: round 0 state and challenge
are fine, the round 1 state is fine, but every proof file is present yet
corrupt; everything else is missing. -/
def filesC : CircuitFiles where
  stateFile := fun r =>
    if r = 0 then FileRead.ok 10 else if r = 1 then FileRead.ok 11 else FileRead.missing
  challengeFile := fun r => if r = 0 then FileRead.ok 20 else FileRead.missing
  proofFile := fun _ => FileRead.corrupt

/-- On any preprocessing failure the registry is unchanged. -/
theorem preprocess_error_preserves (cer : Ceremony) (reg : Registry)
    (msg : SignedMessage) (e : CeremonyError)
    (h : (preprocess_request cer reg msg).1 = Except.error e) :
    (preprocess_request cer reg msg).2 = reg := by
  unfold preprocess_request at h ⊢
  cases hm : reg msg.identifier with
  | none => simp [hm]
  | some p =>
    simp only [hm] at h ⊢
    by_cases hc : p.contributed
    · simp [hc]
    · by_cases hn : nonceIsValid p.nonce
      · by_cases hs : cer.sigOk p.nonce p.verifyingKey msg.payload msg.sig
        · simp [hc, hn, hs] at h
        · simp [hc, hn, hs]
      · simp [hc, hn]

/-- On preprocessing success the participant existed, had not contributed,
had a valid nonce, passed signature verification, and the sole mutation is
the nonce increment on their record. -/
theorem preprocess_ok_effect (cer : Ceremony) (reg : Registry)
    (msg : SignedMessage) (pr : Nat)
    (h : (preprocess_request cer reg msg).1 = Except.ok pr) :
    ∃ p, reg msg.identifier = some p ∧ p.contributed = false ∧
      p.nonce < U64MAX ∧
      cer.sigOk p.nonce p.verifyingKey msg.payload msg.sig = true ∧
      pr = p.priority ∧
      (preprocess_request cer reg msg).2
        = rset reg msg.identifier { p with nonce := p.nonce + 1 } := by
  unfold preprocess_request at h ⊢
  cases hm : reg msg.identifier with
  | none => simp [hm] at h
  | some p =>
    simp only [hm] at h ⊢
    by_cases hc : p.contributed
    · simp [hc] at h
    · by_cases hn : nonceIsValid p.nonce
      · by_cases hs : cer.sigOk p.nonce p.verifyingKey msg.payload msg.sig
        · refine ⟨p, rfl, by simpa using hc, by simpa [nonceIsValid] using hn,
            by simpa using hs, ?_, ?_⟩
          · simp [hc, hn, hs] at h
            exact h.symm
          · simp only [hc, hn, hs]
            simp [incrementNonce, Nat.min_eq_left]
            have : p.nonce + 1 ≤ U64MAX := by
              have := (by simpa [nonceIsValid] using hn : p.nonce < U64MAX)
              omega
            simp [Nat.min_eq_left this]
        · simp [hc, hn, hs] at h
      · simp [hc, hn] at h

/-- C5: `preprocess_request` increments the participant's stored nonce by
exactly one before returning success (so the stored nonce strictly
increases with each validated request), while every failure returns the
error with the registry — nonce and whole record included — unchanged. -/
theorem C5_preprocess_increments_once (cer : Ceremony) (reg : Registry)
    (msg : SignedMessage) :
    (∀ e, (preprocess_request cer reg msg).1 = Except.error e →
        (preprocess_request cer reg msg).2 = reg) ∧
    (∀ pr p, (preprocess_request cer reg msg).1 = Except.ok pr →
        reg msg.identifier = some p →
        (preprocess_request cer reg msg).2 msg.identifier
            = some { p with nonce := p.nonce + 1 } ∧
        p.nonce < p.nonce + 1 ∧
        (∀ j, j ≠ msg.identifier → (preprocess_request cer reg msg).2 j = reg j)) := by
  constructor
  · intro e he
    exact preprocess_error_preserves cer reg msg e he
  · intro pr p hok hsome
    obtain ⟨q, hq, -, -, -, -, heff⟩ := preprocess_ok_effect cer reg msg pr hok
    rw [hsome] at hq
    cases hq
    refine ⟨?_, Nat.lt_succ_self _, ?_⟩
    · rw [heff]
      simp [rset]
    · intro j hj
      rw [heff]
      simp [rset, hj]

/-- Witness for C5 at concrete inputs: a badly signed request leaves the
registry untouched, and the correctly signed request `msgT` bumps
participant 1's nonce from 0 to 1. -/
theorem C5_preprocess_increments_once_witness :
    (preprocess_request cerT regT { identifier := 1, payload := 0, sig := 3 }).2 = regT ∧
    (preprocess_request cerT regT msgT).2 1
      = some { verifyingKey := 5, nonce := 1, priority := 1, contributed := false } :=
  ⟨(C5_preprocess_increments_once cerT regT
      { identifier := 1, payload := 0, sig := 3 }).1
      (CeremonyError.InvalidSignature 0) (by rfl),
   ((C5_preprocess_increments_once cerT regT msgT).2 1
      { verifyingKey := 5, nonce := 0, priority := 1, contributed := false }
      (by rfl) (by rfl)).1⟩

/-- C6: preprocessing checks run in a fixed order: unknown identifier
gives `NotRegistered`; then a contributed participant gives
`AlreadyContributed` with no condition on the signature; then a saturated
nonce gives `AllNoncesUsed`; and only then a failing signature over the
stored nonce gives `InvalidSignature` carrying that nonce. -/
theorem C6_preprocess_check_order (cer : Ceremony) (reg : Registry)
    (msg : SignedMessage) :
    (reg msg.identifier = none →
      (preprocess_request cer reg msg).1 = Except.error CeremonyError.NotRegistered) ∧
    (∀ p, reg msg.identifier = some p → p.contributed = true →
      (preprocess_request cer reg msg).1 = Except.error CeremonyError.AlreadyContributed) ∧
    (∀ p, reg msg.identifier = some p → p.contributed = false → ¬ p.nonce < U64MAX →
      (preprocess_request cer reg msg).1
        = Except.error CeremonyError.UnexpectedAllNoncesUsed) ∧
    (∀ p, reg msg.identifier = some p → p.contributed = false → p.nonce < U64MAX →
      cer.sigOk p.nonce p.verifyingKey msg.payload msg.sig = false →
      (preprocess_request cer reg msg).1
        = Except.error (CeremonyError.InvalidSignature p.nonce)) := by
  refine ⟨?_, ?_, ?_, ?_⟩
  · intro h
    simp [preprocess_request, h]
  · intro p hp hc
    simp [preprocess_request, hp, hc]
  · intro p hp hc hn
    simp [preprocess_request, hp, hc, nonceIsValid, hn]
  · intro p hp hc hn hs
    simp [preprocess_request, hp, hc, nonceIsValid, hn, hs]

/-- Witness for C6 at concrete inputs: one request per failure branch,
including an `AlreadyContributed` response to a badly signed resubmission
and an `InvalidSignature` carrying the stored nonce 0. -/
theorem C6_preprocess_check_order_witness :
    (preprocess_request cerT regT { identifier := 3, payload := 0, sig := 0 }).1
      = Except.error CeremonyError.NotRegistered ∧
    (preprocess_request cerT regC { identifier := 1, payload := 0, sig := 3 }).1
      = Except.error CeremonyError.AlreadyContributed ∧
    (preprocess_request cerT regSat { identifier := 1, payload := 0, sig := 0 }).1
      = Except.error CeremonyError.UnexpectedAllNoncesUsed ∧
    (preprocess_request cerT regT { identifier := 1, payload := 0, sig := 3 }).1
      = Except.error (CeremonyError.InvalidSignature 0) :=
  ⟨(C6_preprocess_check_order cerT regT
      { identifier := 3, payload := 0, sig := 0 }).1 (by rfl),
   (C6_preprocess_check_order cerT regC
      { identifier := 1, payload := 0, sig := 3 }).2.1
      { verifyingKey := 5, nonce := 2, priority := 1, contributed := true }
      (by rfl) (by rfl),
   (C6_preprocess_check_order cerT regSat
      { identifier := 1, payload := 0, sig := 0 }).2.2.1
      { verifyingKey := 5, nonce := U64MAX, priority := 1, contributed := false }
      (by rfl) (by rfl) (by simp),
   (C6_preprocess_check_order cerT regT
      { identifier := 1, payload := 0, sig := 3 }).2.2.2
      { verifyingKey := 5, nonce := 0, priority := 1, contributed := false }
      (by rfl) (by rfl) (by decide) (by rfl)⟩

/-- When the lock holds the requester and has not expired, `check_lock`
succeeds without mutating anything. -/
theorem checkLock_self_unexpired (lq : LockQueue) (pid : Nat) (reg : Registry)
    (tl now : Nat) (h1 : lq.lock.value = some pid)
    (h2 : hasExpired lq.lock tl now = false) :
    checkLock lq pid reg tl now = (Except.ok (), lq, reg) := by
  simp [checkLock, h2, checkLockUpdErrors, h1]

/-- Every `check_lock` failure is `Timeout` or `NotYourTurn`. -/
theorem checkLock_error_cases (lq : LockQueue) (pid : Nat) (reg : Registry)
    (tl now : Nat) (e : CeremonyError)
    (h : (checkLock lq pid reg tl now).1 = Except.error e) :
    e = CeremonyError.Timeout ∨ e = CeremonyError.NotYourTurn := by
  unfold checkLock checkLockUpdErrors at h
  by_cases he : hasExpired lq.lock tl now
  · simp only [he, if_true] at h
    rcases hv : (updateExpiredLock lq reg now).1 with - | q
    · simp [hv] at h
    · simp only [hv] at h
      by_cases h1 : q = pid ∧ True
      · simp [h1] at h
        exact Or.inl h.symm
      · by_cases h2 : q ≠ pid
        · simp [h1, h2] at h
          exact Or.inr h.symm
        · simp [h1, h2] at h
  · simp only [he, if_false, Bool.false_eq_true] at h
    rcases hv : lq.lock.value with - | q
    · simp [hv] at h
    · simp only [hv] at h
      by_cases h1 : q = pid ∧ False
      · simp at h1
      · by_cases h2 : q ≠ pid
        · simp [h1, h2] at h
          exact Or.inr h.symm
        · simp [h1, h2] at h

/-- C3 (amended): the lock-update rules actually implemented by
`check_lock`.  With an unexpired lock: the holder proceeds, anyone else is
rejected with `NotYourTurn`, and an empty lock lets the request proceed
WITHOUT acquiring anything.  With an expired lock: the queue front is
popped into the lock, the result is checked against the PREVIOUS holder —
`Timeout` for the holder (whose priority is reduced), `NotYourTurn` for
anyone else when a holder existed, and unconditional success when the
lock was empty, regardless of who was just popped in. -/
theorem C3_check_lock_rules (lq : LockQueue) (pid : Nat) (reg : Registry)
    (tl now : Nat) :
    (hasExpired lq.lock tl now = false →
      ((lq.lock.value = some pid ∨ lq.lock.value = none) →
        checkLock lq pid reg tl now = (Except.ok (), lq, reg)) ∧
      (∀ q, lq.lock.value = some q → q ≠ pid →
        checkLock lq pid reg tl now
          = (Except.error CeremonyError.NotYourTurn, lq, reg))) ∧
    (hasExpired lq.lock tl now = true →
      (checkLock lq pid reg tl now).2.1.lock.value = (popFront lq.queue).1 ∧
      (checkLock lq pid reg tl now).2.1.queue = (popFront lq.queue).2 ∧
      (checkLock lq pid reg tl now).2.1.lock.time = now ∧
      (lq.lock.value = some pid →
        (checkLock lq pid reg tl now).1 = Except.error CeremonyError.Timeout ∧
        (∀ p, reg pid = some p →
          (checkLock lq pid reg tl now).2.2 pid
            = some { p with priority := p.priority - 1 })) ∧
      (∀ q, lq.lock.value = some q → q ≠ pid →
        (checkLock lq pid reg tl now).1 = Except.error CeremonyError.NotYourTurn) ∧
      (lq.lock.value = none →
        (checkLock lq pid reg tl now).1 = Except.ok () ∧
        (checkLock lq pid reg tl now).2.2 = reg)) := by
  constructor
  · intro he
    constructor
    · rintro (hv | hv) <;> simp [checkLock, he, checkLockUpdErrors, hv]
    · intro q hq hqp
      simp [checkLock, he, checkLockUpdErrors, hq, hqp]
  · intro he
    refine ⟨?_, ?_, ?_, ?_, ?_, ?_⟩
    · simp [checkLock, he, updateExpiredLock]
    · simp [checkLock, he, updateExpiredLock]
    · simp [checkLock, he, updateExpiredLock]
    · intro hv
      constructor
      · simp [checkLock, he, updateExpiredLock, checkLockUpdErrors, hv]
      · intro p hp
        simp [checkLock, he, updateExpiredLock, hv, hp, rset, reducePriority]
    · intro q hq hqp
      simp [checkLock, he, updateExpiredLock, checkLockUpdErrors, hq, hqp]
    · intro hv
      simp [checkLock, he, updateExpiredLock, checkLockUpdErrors, hv]

/-- Counterexample for C3 as stated: with an empty, unexpired lock and
participant 7 at the front of the queue, a request from participant 9 is
NOT answered by acquiring the lock for 7 and rejecting 9; instead the
request simply proceeds and the lock stays empty with the queue intact. -/
theorem C3_check_lock_counterexample :
    (checkLock { queue := [[7]], lock := { value := none, time := 0 } } 9 regT 10 5).1
      = Except.ok () ∧
    (checkLock { queue := [[7]], lock := { value := none, time := 0 } } 9 regT 10 5).2.1.lock.value
      = none ∧
    (checkLock { queue := [[7]], lock := { value := none, time := 0 } } 9 regT 10 5).2.1.queue
      = [[7]] :=
  ⟨rfl, rfl, rfl⟩

/-- Witness for C3 at concrete inputs: the unexpired holder proceeds, and
an expired holder is rejected with `Timeout`. -/
theorem C3_check_lock_rules_witness :
    checkLock { queue := [[7]], lock := { value := some 9, time := 0 } } 9 regT 10 5
      = (Except.ok (), { queue := [[7]], lock := { value := some 9, time := 0 } }, regT) ∧
    (checkLock { queue := [[2]], lock := { value := some 1, time := 0 } } 1 regT 3 10).1
      = Except.error CeremonyError.Timeout :=
  ⟨((C3_check_lock_rules
      { queue := [[7]], lock := { value := some 9, time := 0 } } 9 regT 10 5).1
      (by rfl)).1 (Or.inl rfl),
   (((C3_check_lock_rules
      { queue := [[2]], lock := { value := some 1, time := 0 } } 1 regT 3 10).2
      (by rfl)).2.2.2.1 (by rfl)).1⟩

/-- C4 (amended): an expired lock is rotated by the next incoming request:
the prior holder's priority drops one level and the queue front is popped
into the lock with a fresh timestamp.  The rotating request itself is
REJECTED — `Timeout` for the prior holder, `NotYourTurn` for anyone else,
including the participant who just became the new holder — and only a
subsequent request from the new holder, made before the fresh lock
expires, proceeds.  The rotation leaves the round counter unchanged. -/
theorem C4_expired_lock_rotation (lq : LockQueue) (pid prior : Nat)
    (reg : Registry) (tl now : Nat) (p : Participant)
    (hv : lq.lock.value = some prior)
    (he : hasExpired lq.lock tl now = true)
    (hp : reg prior = some p) :
    (checkLock lq pid reg tl now).2.1.lock.value = (popFront lq.queue).1 ∧
    (checkLock lq pid reg tl now).2.1.lock.time = now ∧
    (checkLock lq pid reg tl now).2.2 prior
      = some { p with priority := p.priority - 1 } ∧
    (prior = pid →
      (checkLock lq pid reg tl now).1 = Except.error CeremonyError.Timeout) ∧
    (prior ≠ pid →
      (checkLock lq pid reg tl now).1 = Except.error CeremonyError.NotYourTurn) ∧
    (∀ b now2, (popFront lq.queue).1 = some b → now2 - now ≤ tl →
      (checkLock (checkLock lq pid reg tl now).2.1 b
          (checkLock lq pid reg tl now).2.2 tl now2).1 = Except.ok ()) ∧
    (∀ cer sclp rd ss ps,
      (Coordinator.update cer ⟨lq, reg, sclp, tl, rd⟩ pid ss ps now).2.round = rd) := by
  refine ⟨?_, ?_, ?_, ?_, ?_, ?_, ?_⟩
  · simp [checkLock, he, updateExpiredLock]
  · simp [checkLock, he, updateExpiredLock]
  · simp [checkLock, he, updateExpiredLock, hv, hp, rset, reducePriority]
  · intro hpe
    simp [checkLock, he, updateExpiredLock, checkLockUpdErrors, hv, hpe]
  · intro hpe
    simp [checkLock, he, updateExpiredLock, checkLockUpdErrors, hv, hpe]
  · intro b now2 hb hle
    have hrot : (checkLock lq pid reg tl now).2.1.lock
        = { value := (popFront lq.queue).1, time := now } := by
      simp [checkLock, he, updateExpiredLock]
    have hval : (checkLock lq pid reg tl now).2.1.lock.value = some b := by
      rw [hrot, hb]
    have hexp : hasExpired (checkLock lq pid reg tl now).2.1.lock tl now2 = false := by
      rw [hrot]
      simp [hasExpired]
      omega
    rw [checkLock_self_unexpired _ b _ tl now2 hval hexp]
  · intro cer sclp rd ss ps
    by_cases hpe : prior = pid
    · simp [Coordinator.update, checkLock, he, updateExpiredLock,
        checkLockUpdErrors, hv, hpe]
    · simp [Coordinator.update, checkLock, he, updateExpiredLock,
        checkLockUpdErrors, hv, hpe]

/-- Counterexample for C4 as stated: lock held by 1 since time 0, limit 3,
request from 2 at time 10 (expired).  Participant 2 is popped from the
queue and becomes the new holder, yet this very request is rejected with
`NotYourTurn` — not served with `YourTurn`. -/
theorem C4_expired_lock_counterexample :
    (checkLock { queue := [[2]], lock := { value := some 1, time := 0 } } 2 regT 3 10).1
      = Except.error CeremonyError.NotYourTurn ∧
    (checkLock { queue := [[2]], lock := { value := some 1, time := 0 } } 2 regT 3 10).2.1.lock.value
      = some 2 :=
  ⟨rfl, rfl⟩

/-- Witness for C4 at concrete inputs: priority of the prior holder 1
drops from 1 to 0, the rotating request from 2 is rejected, a follow-up
request from 2 at time 12 proceeds, and the round counter stays 0. -/
theorem C4_expired_lock_rotation_witness :
    (checkLock { queue := [[2]], lock := { value := some 1, time := 0 } } 2 regT 3 10).2.2 1
      = some { verifyingKey := 5, nonce := 0, priority := 0, contributed := false } ∧
    (checkLock { queue := [[2]], lock := { value := some 1, time := 0 } } 2 regT 3 10).1
      = Except.error CeremonyError.NotYourTurn ∧
    (checkLock
        (checkLock { queue := [[2]], lock := { value := some 1, time := 0 } } 2 regT 3 10).2.1 2
        (checkLock { queue := [[2]], lock := { value := some 1, time := 0 } } 2 regT 3 10).2.2
        3 12).1 = Except.ok () ∧
    (Coordinator.update cerT
      ⟨{ queue := [[2]], lock := { value := some 1, time := 0 } }, regT,
        { state := [10], challenge := [20], latest_proof := none }, 3, 0⟩
      2 [11] [18] 10).2.round = 0 := by
  have h := C4_expired_lock_rotation
    { queue := [[2]], lock := { value := some 1, time := 0 } } 2 1 regT 3 10
    { verifyingKey := 5, nonce := 0, priority := 1, contributed := false }
    (by rfl) (by rfl) (by rfl)
  exact ⟨h.2.2.1, h.2.2.2.2.1 (by decide), h.2.2.2.2.2.1 2 12 (by rfl) (by decide),
    h.2.2.2.2.2.2 cerT { state := [10], challenge := [20], latest_proof := none } 0 [11] [18]⟩

/-- C10: `LockQueue::update` performs no verification at all — its result
never is `BadRequest` — and whenever its lock check passes it rotates the
lock to the new front of the queue and marks the requesting participant
as contributed, without inspecting any submitted state or proof (none are
even passed to it). -/
theorem C10_lockqueue_update_no_verification (lq : LockQueue) (pid : Nat)
    (reg : Registry) (tl now : Nat) :
    ((LockQueue.update lq pid reg tl now).1
        ≠ Except.error CeremonyError.BadRequest) ∧
    (∀ p, (checkLock lq pid reg tl now).1 = Except.ok () →
      (checkLock lq pid reg tl now).2.2 pid = some p →
      LockQueue.update lq pid reg tl now
        = (Except.ok (),
           { queue := (popFront (checkLock lq pid reg tl now).2.1.queue).2,
             lock := { value := (popFront (checkLock lq pid reg tl now).2.1.queue).1,
                       time := now } },
           rset (checkLock lq pid reg tl now).2.2 pid { p with contributed := true })) := by
  constructor
  · rcases hc : checkLock lq pid reg tl now with ⟨res, lq', reg'⟩
    cases res with
    | error e =>
      have he : e = CeremonyError.Timeout ∨ e = CeremonyError.NotYourTurn :=
        checkLock_error_cases lq pid reg tl now e (by rw [hc])
      unfold LockQueue.update
      rw [hc]
      rcases he with he | he <;> simp [he]
    | ok u =>
      cases u
      unfold LockQueue.update
      rw [hc]
      cases hr : reg' pid <;> simp [hr]
  · intro p hok hp
    rcases hc : checkLock lq pid reg tl now with ⟨res, lq', reg'⟩
    rw [hc] at hok hp
    simp only at hok hp
    cases hok
    unfold LockQueue.update
    rw [hc]
    simp [hp]

/-- Witness for C10 at concrete inputs: participant 1 holds the unexpired
lock, requests an update, and without any proof being checked the lock
rotates to participant 2 and participant 1 is marked contributed. -/
theorem C10_lockqueue_update_no_verification_witness :
    LockQueue.update { queue := [[2]], lock := { value := some 1, time := 0 } } 1 regT 10 5
      = (Except.ok (),
         { queue := [[]], lock := { value := some 2, time := 5 } },
         rset regT 1 { verifyingKey := 5, nonce := 0, priority := 1, contributed := true }) :=
  (C10_lockqueue_update_no_verification
      { queue := [[2]], lock := { value := some 1, time := 0 } } 1 regT 10 5).2
      { verifyingKey := 5, nonce := 0, priority := 1, contributed := false }
      (by rfl) (by rfl)

/-- The only error the update loop produces is `BadRequest`. -/
theorem updateLoop_error_eq (cer : Ceremony) :
    ∀ cs ss ss' ps e, (updateLoop cer cs ss ss' ps).1 = some e →
      e = CeremonyError.BadRequest := by
  intro cs
  induction cs with
  | nil => intro ss ss' ps e h; simp [updateLoop] at h
  | cons c cs ih =>
    intro ss ss' ps e h
    cases ss with
    | nil => simp [updateLoop] at h
    | cons s ss =>
      cases ss' with
      | nil => simp [updateLoop] at h
      | cons s' ss' =>
        cases ps with
        | nil => simp [updateLoop] at h
        | cons p ps =>
          unfold updateLoop at h
          cases hv : verify_transform cer c s s' p with
          | none =>
            rw [hv] at h
            simp at h
            exact h.symm
          | some r =>
            rw [hv] at h
            simp at h
            exact ih ss ss' ps e h

/-- When every circuit's check passes, the update loop succeeds, the new
state array is exactly the submitted one, and the new challenge array is
the pointwise transcript hash of old challenge, old state, submitted
state and proof. -/
theorem updateLoop_ok (cer : Ceremony) :
    ∀ (cs ss ss' ps : List Nat), cs.length = ss.length → cs.length = ss'.length →
      cs.length = ps.length →
      (∀ (i c s s' p : Nat), cs[i]? = some c → ss[i]? = some s → ss'[i]? = some s' →
        ps[i]? = some p → cer.verifyCheck c s s' p = true) →
      updateLoop cer cs ss ss' ps = (none, map4 cer.challenge cs ss ss' ps, ss') := by
  intro cs
  induction cs with
  | nil =>
    intro ss ss' ps h1 h2 h3 _
    have : ss = [] := List.eq_nil_of_length_eq_zero h1.symm
    have : ss' = [] := List.eq_nil_of_length_eq_zero h2.symm
    have : ps = [] := List.eq_nil_of_length_eq_zero h3.symm
    subst_vars
    simp [updateLoop, map4]
  | cons c cs ih =>
    intro ss ss' ps h1 h2 h3 hall
    cases ss with
    | nil => simp at h1
    | cons s ss =>
      cases ss' with
      | nil => simp at h2
      | cons s' ss' =>
        cases ps with
        | nil => simp at h3
        | cons p ps =>
          have hhead : cer.verifyCheck c s s' p = true :=
            hall 0 c s s' p (by simp) (by simp) (by simp) (by simp)
          have htail := ih ss ss' ps (by simpa using h1) (by simpa using h2)
            (by simpa using h3)
            (fun i ci si si' pi hc hs hs' hp =>
              hall (i + 1) ci si si' pi (by simpa using hc) (by simpa using hs)
                (by simpa using hs') (by simpa using hp))
          unfold updateLoop
          rw [show verify_transform cer c s s' p = some (cer.challenge c s s' p, s')
                from by simp [verify_transform, hhead]]
          simp [htail, map4]

/-- Entrywise description of `map4`. -/
theorem map4_getElem (f : Nat → Nat → Nat → Nat → Nat) :
    ∀ (xs ys zs ws : List Nat) (i c s s' p : Nat), xs[i]? = some c → ys[i]? = some s →
      zs[i]? = some s' → ws[i]? = some p →
      (map4 f xs ys zs ws)[i]? = some (f c s s' p) := by
  intro xs
  induction xs with
  | nil => intro ys zs ws i c s s' p hc; simp at hc
  | cons x xs ih =>
    intro ys zs ws i c s s' p hc hs hs' hp
    cases ys with
    | nil => simp at hs
    | cons y ys =>
      cases zs with
      | nil => simp at hs'
      | cons z zs =>
        cases ws with
        | nil => simp at hp
        | cons w ws =>
          cases i with
          | zero =>
            simp only [List.getElem?_cons_zero, Option.some.injEq] at hc hs hs' hp
            subst_vars
            simp [map4]
          | succ n =>
            simp only [List.getElem?_cons_succ] at hc hs hs' hp
            simpa [map4] using ih ys zs ws n c s s' p hc hs hs' hp

/-- When the check fails first at index `i`, the update loop stops with
`BadRequest`, having overwritten exactly the entries before `i`: the new
state array is the submitted prefix glued to the old suffix, and likewise
for the challenges. -/
theorem updateLoop_fail (cer : Ceremony) :
    ∀ (i : Nat) (cs ss ss' ps : List Nat) (c s s' p : Nat),
      cs.length = ss.length → cs.length = ss'.length → cs.length = ps.length →
      cs[i]? = some c → ss[i]? = some s → ss'[i]? = some s' → ps[i]? = some p →
      cer.verifyCheck c s s' p = false →
      (∀ j, j < i → ∀ (cj sj sj' pj : Nat), cs[j]? = some cj → ss[j]? = some sj →
        ss'[j]? = some sj' → ps[j]? = some pj → cer.verifyCheck cj sj sj' pj = true) →
      updateLoop cer cs ss ss' ps
        = (some CeremonyError.BadRequest,
           map4 cer.challenge (cs.take i) (ss.take i) (ss'.take i) (ps.take i)
             ++ cs.drop i,
           (ss'.take i) ++ ss.drop i) := by
  intro i
  induction i with
  | zero =>
    intro cs ss ss' ps c s s' p h1 h2 h3 hc hs hs' hp hfail _
    cases cs with
    | nil => simp at hc
    | cons c0 cs =>
      cases ss with
      | nil => simp at hs
      | cons s0 ss =>
        cases ss' with
        | nil => simp at hs'
        | cons s0' ss' =>
          cases ps with
          | nil => simp at hp
          | cons p0 ps =>
            simp only [List.getElem?_cons_zero, Option.some.injEq] at hc hs hs' hp
            subst_vars
            unfold updateLoop
            simp [verify_transform, hfail, map4]
  | succ n ih =>
    intro cs ss ss' ps c s s' p h1 h2 h3 hc hs hs' hp hfail hpass
    cases cs with
    | nil => simp at hc
    | cons c0 cs =>
      cases ss with
      | nil => simp at hs
      | cons s0 ss =>
        cases ss' with
        | nil => simp at hs'
        | cons s0' ss' =>
          cases ps with
          | nil => simp at hp
          | cons p0 ps =>
            simp only [List.getElem?_cons_succ] at hc hs hs' hp
            have hhead : cer.verifyCheck c0 s0 s0' p0 = true :=
              hpass 0 (Nat.succ_pos n) c0 s0 s0' p0 (by simp) (by simp) (by simp) (by simp)
            have htail := ih cs ss ss' ps c s s' p (by simpa using h1)
              (by simpa using h2) (by simpa using h3) hc hs hs' hp hfail
              (fun j hj cj sj sj' pj hcj hsj hsj' hpj =>
                hpass (j + 1) (Nat.succ_lt_succ hj) cj sj sj' pj
                  (by simpa using hcj) (by simpa using hsj)
                  (by simpa using hsj') (by simpa using hpj))
            unfold updateLoop
            rw [show verify_transform cer c0 s0 s0' p0 = some (cer.challenge c0 s0 s0' p0, s0')
                  from by simp [verify_transform, hhead]]
            simp [htail, map4]

/-- Explicit value of a successful preprocessing call. -/
theorem preprocess_ok_compute (cer : Ceremony) (reg : Registry)
    (msg : SignedMessage) (p : Participant)
    (h1 : reg msg.identifier = some p) (h2 : p.contributed = false)
    (h3 : p.nonce < U64MAX)
    (h4 : cer.sigOk p.nonce p.verifyingKey msg.payload msg.sig = true) :
    preprocess_request cer reg msg
      = (Except.ok p.priority,
         rset reg msg.identifier { p with nonce := p.nonce + 1 }) := by
  have hmin : p.nonce + 1 ≤ U64MAX := Nat.succ_le_of_lt h3
  simp [preprocess_request, h1, h2, nonceIsValid, h3, h4, incrementNonce,
    Nat.min_eq_left hmin]

/-- C2: on a successful update, the stored state of every circuit becomes
the verified next state (the submitted one), the stored challenge of
every circuit `i` becomes
`challenge(prev_challenge[i], prev_state[i], next_state[i], proof[i])`,
and `latest_proof` becomes `Some(proof)`. -/
theorem C2_update_success (cer : Ceremony) (sclp : StateChallengeProof)
    (subStates subProofs : List Nat)
    (h1 : sclp.challenge.length = sclp.state.length)
    (h2 : sclp.challenge.length = subStates.length)
    (h3 : sclp.challenge.length = subProofs.length)
    (hall : ∀ (i c s s' p : Nat), sclp.challenge[i]? = some c →
      sclp.state[i]? = some s → subStates[i]? = some s' →
      subProofs[i]? = some p → cer.verifyCheck c s s' p = true) :
    (StateChallengeProof.update cer sclp subStates subProofs).1 = Except.ok () ∧
    (StateChallengeProof.update cer sclp subStates subProofs).2.state = subStates ∧
    (StateChallengeProof.update cer sclp subStates subProofs).2.latest_proof
      = some subProofs ∧
    (∀ (i c s s' p : Nat), sclp.challenge[i]? = some c → sclp.state[i]? = some s →
      subStates[i]? = some s' → subProofs[i]? = some p →
      (StateChallengeProof.update cer sclp subStates subProofs).2.challenge[i]?
        = some (cer.challenge c s s' p)) := by
  have hloop := updateLoop_ok cer sclp.challenge sclp.state subStates subProofs
    h1 h2 h3 hall
  refine ⟨?_, ?_, ?_, ?_⟩
  · simp [StateChallengeProof.update, hloop]
  · simp [StateChallengeProof.update, hloop]
  · simp [StateChallengeProof.update, hloop]
  · intro i c s s' p hc hs hs' hp
    have := map4_getElem cer.challenge sclp.challenge sclp.state subStates subProofs
      i c s s' p hc hs hs' hp
    simp [StateChallengeProof.update, hloop, this]

/-- Witness for C2 at concrete inputs: one circuit with state 10 and
challenge 20; the valid contribution (state 11, proof 18) is accepted,
the state becomes 11, the challenge becomes the transcript hash of
(20, 10, 11, 18), and the proof is recorded. -/
theorem C2_update_success_witness :
    (StateChallengeProof.update cerT
      { state := [10], challenge := [20], latest_proof := none } [11] [18]).1
      = Except.ok () ∧
    (StateChallengeProof.update cerT
      { state := [10], challenge := [20], latest_proof := none } [11] [18]).2.state
      = [11] ∧
    (StateChallengeProof.update cerT
      { state := [10], challenge := [20], latest_proof := none } [11] [18]).2.latest_proof
      = some [18] ∧
    (StateChallengeProof.update cerT
      { state := [10], challenge := [20], latest_proof := none } [11] [18]).2.challenge[0]?
      = some (cerT.challenge 20 10 11 18) := by
  have h := C2_update_success cerT
    { state := [10], challenge := [20], latest_proof := none } [11] [18]
    (by rfl) (by rfl) (by rfl)
    (by
      intro i c s s' p hc hs hs' hp
      cases i with
      | zero =>
        simp only [List.getElem?_cons_zero, Option.some.injEq] at hc hs hs' hp
        subst_vars
        decide
      | succ n => simp at hc)
  exact ⟨h.1, h.2.1, h.2.2.1, h.2.2.2 0 20 10 11 18 (by rfl) (by rfl) (by rfl) (by rfl)⟩

/-- Counterexample for C1 as stated: participant 1 holds the unexpired
lock with participant 2 queued; a bad contribution from 1 returns
`BadRequest`, but the lock still holds participant 1 and the queue still
holds participant 2 — the lock is NOT released — and a request from the
queued participant 2 is still rejected with `NotYourTurn`. -/
theorem C1_lock_not_released_counterexample :
    (processContribution cerT coT msgT [11] [0] 5).1
      = Except.error CeremonyError.BadRequest ∧
    (processContribution cerT coT msgT [11] [0] 5).2.lockQueue.lock.value = some 1 ∧
    (processContribution cerT coT msgT [11] [0] 5).2.lockQueue.queue = [[2]] ∧
    (checkLock (processContribution cerT coT msgT [11] [0] 5).2.lockQueue 2
      (processContribution cerT coT msgT [11] [0] 5).2.registry 10 6).1
      = Except.error CeremonyError.NotYourTurn :=
  ⟨rfl, rfl, rfl, rfl⟩

/-- C1 (amended): when a preprocessed contribution fails verification on
some circuit, the call returns `BadRequest`, the participant's
contributed flag stays false and their nonce has already been incremented
by preprocessing, but the lock is NOT released: the lock queue is exactly
as the (unexpired) lock check left it, still held by the participant, and
the round counter and `latest_proof` are unchanged.  The next queued
participant is only served after the lock expires. -/
theorem C1_bad_proof_keeps_lock (cer : Ceremony) (co : Coordinator)
    (msg : SignedMessage) (subStates subProofs : List Nat) (now : Nat)
    (p : Participant)
    (h1 : co.registry msg.identifier = some p)
    (h2 : p.contributed = false)
    (h3 : p.nonce < U64MAX)
    (h4 : cer.sigOk p.nonce p.verifyingKey msg.payload msg.sig = true)
    (h5 : co.lockQueue.lock.value = some msg.identifier)
    (h6 : hasExpired co.lockQueue.lock co.timeLimit now = false)
    (h7 : (updateLoop cer co.sclp.challenge co.sclp.state subStates subProofs).1
      = some CeremonyError.BadRequest) :
    (processContribution cer co msg subStates subProofs now).1
      = Except.error CeremonyError.BadRequest ∧
    (processContribution cer co msg subStates subProofs now).2.lockQueue
      = co.lockQueue ∧
    (processContribution cer co msg subStates subProofs now).2.registry msg.identifier
      = some { p with nonce := p.nonce + 1 } ∧
    ((processContribution cer co msg subStates subProofs now).2.registry
        msg.identifier).map Participant.contributed = some false ∧
    (processContribution cer co msg subStates subProofs now).2.round = co.round ∧
    (processContribution cer co msg subStates subProofs now).2.sclp.latest_proof
      = co.sclp.latest_proof := by
  have hpre := preprocess_ok_compute cer co.registry msg p h1 h2 h3 h4
  have hcl := checkLock_self_unexpired co.lockQueue msg.identifier
    (rset co.registry msg.identifier { p with nonce := p.nonce + 1 })
    co.timeLimit now h5 h6
  have hres : processContribution cer co msg subStates subProofs now
      = (Except.error CeremonyError.BadRequest,
         { co with
            registry := rset co.registry msg.identifier { p with nonce := p.nonce + 1 },
            sclp := { co.sclp with
              challenge := (updateLoop cer co.sclp.challenge co.sclp.state
                subStates subProofs).2.1,
              state := (updateLoop cer co.sclp.challenge co.sclp.state
                subStates subProofs).2.2 } }) := by
    simp only [processContribution, hpre]
    simp only [Coordinator.update, hcl, h7]
  rw [hres]
  refine ⟨rfl, rfl, ?_, ?_, rfl, rfl⟩
  · simp [rset]
  · simp [rset, h2]

/-- Witness for C1 at concrete inputs: the bad contribution (proof 0 for
submitted state 11) from locked participant 1 yields `BadRequest`, an
untouched lock queue, nonce 1 with contributed still false, round 0 and
no latest proof. -/
theorem C1_bad_proof_keeps_lock_witness :
    (processContribution cerT coT msgT [11] [0] 5).2.lockQueue = coT.lockQueue ∧
    (processContribution cerT coT msgT [11] [0] 5).2.registry 1
      = some { verifyingKey := 5, nonce := 1, priority := 1, contributed := false } ∧
    (processContribution cerT coT msgT [11] [0] 5).2.round = coT.round ∧
    (processContribution cerT coT msgT [11] [0] 5).2.sclp.latest_proof
      = coT.sclp.latest_proof := by
  have h := C1_bad_proof_keeps_lock cerT coT msgT [11] [0] 5
    { verifyingKey := 5, nonce := 0, priority := 1, contributed := false }
    (by rfl) (by rfl) (by decide) (by rfl) (by rfl) (by rfl) (by rfl)
  exact ⟨h.2.1, h.2.2.1, h.2.2.2.2.1, h.2.2.2.2.2⟩

/-- C9: when `Coordinator::update` fails verification at circuit index
`i`, it returns `BadRequest` with the state and challenge entries of all
indices below `i` already overwritten (submitted states and freshly
hashed challenges respectively) and all entries from `i` on unchanged —
the multi-circuit update is not atomic on error — while `latest_proof`,
the registry (hence the contributed flag) and the round counter are
unchanged. -/
theorem C9_partial_update_on_failure (cer : Ceremony) (co : Coordinator)
    (pid : Nat) (subStates subProofs : List Nat) (now : Nat)
    (i c s s' p : Nat)
    (hlock : co.lockQueue.lock.value = some pid)
    (hexp : hasExpired co.lockQueue.lock co.timeLimit now = false)
    (hl1 : co.sclp.challenge.length = co.sclp.state.length)
    (hl2 : co.sclp.challenge.length = subStates.length)
    (hl3 : co.sclp.challenge.length = subProofs.length)
    (hc : co.sclp.challenge[i]? = some c)
    (hs : co.sclp.state[i]? = some s)
    (hs' : subStates[i]? = some s')
    (hp : subProofs[i]? = some p)
    (hfail : cer.verifyCheck c s s' p = false)
    (hpass : ∀ j, j < i → ∀ (cj sj sj' pj : Nat), co.sclp.challenge[j]? = some cj →
      co.sclp.state[j]? = some sj → subStates[j]? = some sj' →
      subProofs[j]? = some pj → cer.verifyCheck cj sj sj' pj = true) :
    (Coordinator.update cer co pid subStates subProofs now).1
      = Except.error CeremonyError.BadRequest ∧
    (Coordinator.update cer co pid subStates subProofs now).2.sclp.state
      = subStates.take i ++ co.sclp.state.drop i ∧
    (Coordinator.update cer co pid subStates subProofs now).2.sclp.challenge
      = map4 cer.challenge (co.sclp.challenge.take i) (co.sclp.state.take i)
          (subStates.take i) (subProofs.take i) ++ co.sclp.challenge.drop i ∧
    (Coordinator.update cer co pid subStates subProofs now).2.sclp.latest_proof
      = co.sclp.latest_proof ∧
    (Coordinator.update cer co pid subStates subProofs now).2.registry
      = co.registry ∧
    (Coordinator.update cer co pid subStates subProofs now).2.round = co.round := by
  have hloop := updateLoop_fail cer i co.sclp.challenge co.sclp.state subStates
    subProofs c s s' p hl1 hl2 hl3 hc hs hs' hp hfail hpass
  have hcl := checkLock_self_unexpired co.lockQueue pid co.registry
    co.timeLimit now hlock hexp
  have hres : Coordinator.update cer co pid subStates subProofs now
      = (Except.error CeremonyError.BadRequest,
         { co with
            sclp := { co.sclp with
              challenge := map4 cer.challenge (co.sclp.challenge.take i)
                (co.sclp.state.take i) (subStates.take i) (subProofs.take i)
                ++ co.sclp.challenge.drop i,
              state := subStates.take i ++ co.sclp.state.drop i } }) := by
    simp only [Coordinator.update, hcl, hloop]
  rw [hres]
  exact ⟨rfl, rfl, rfl, rfl, rfl, rfl⟩

/-- Witness for C9 at concrete inputs: two circuits (states 10, 30;
challenges 20, 40); the first submitted pair (11, 18) verifies, the
second (31, 0) fails.  The call returns `BadRequest` with state array
`[11, 30]` and challenge array `[hash, 40]` — circuit 0 already
overwritten — while the proof, registry and round are untouched. -/
theorem C9_partial_update_on_failure_witness :
    (Coordinator.update cerT
      ⟨{ queue := [[2]], lock := { value := some 1, time := 0 } }, regT,
        { state := [10, 30], challenge := [20, 40], latest_proof := none }, 10, 0⟩
      1 [11, 31] [18, 0] 5).1 = Except.error CeremonyError.BadRequest ∧
    (Coordinator.update cerT
      ⟨{ queue := [[2]], lock := { value := some 1, time := 0 } }, regT,
        { state := [10, 30], challenge := [20, 40], latest_proof := none }, 10, 0⟩
      1 [11, 31] [18, 0] 5).2.sclp.state = [11, 30] ∧
    (Coordinator.update cerT
      ⟨{ queue := [[2]], lock := { value := some 1, time := 0 } }, regT,
        { state := [10, 30], challenge := [20, 40], latest_proof := none }, 10, 0⟩
      1 [11, 31] [18, 0] 5).2.sclp.challenge = [cerT.challenge 20 10 11 18, 40] ∧
    (Coordinator.update cerT
      ⟨{ queue := [[2]], lock := { value := some 1, time := 0 } }, regT,
        { state := [10, 30], challenge := [20, 40], latest_proof := none }, 10, 0⟩
      1 [11, 31] [18, 0] 5).2.round = 0 := by
  have h := C9_partial_update_on_failure cerT
    ⟨{ queue := [[2]], lock := { value := some 1, time := 0 } }, regT,
      { state := [10, 30], challenge := [20, 40], latest_proof := none }, 10, 0⟩
    1 [11, 31] [18, 0] 5 1 40 30 31 0
    (by rfl) (by rfl) (by rfl) (by rfl) (by rfl)
    (by rfl) (by rfl) (by rfl) (by rfl) (by decide)
    (by
      intro j hj cj sj sj' pj hcj hsj hsj' hpj
      cases j with
      | zero =>
        simp only [List.getElem?_cons_zero, Option.some.injEq] at hcj hsj hsj' hpj
        subst_vars
        decide
      | succ n => omega)
  exact ⟨h.1, h.2.1, h.2.2.1, h.2.2.2.2.2⟩

/-- Counterexample for C7 as stated: from an initial registry whose
participant 1 has nonce 0 (registration assigns nonce 0), after exactly
one signature-validated request the stored nonce is 1, which differs from
1 + (number of validated requests) = 2. -/
theorem C7_nonce_counterexample :
    ((processRequests cerT regT [msgT]) 1).map Participant.nonce = some 1 ∧
    validatedCount cerT regT [msgT] 1 = 1 ∧
    ¬ ((processRequests cerT regT [msgT]) 1).map Participant.nonce
        = some (1 + validatedCount cerT regT [msgT] 1) := by
  refine ⟨rfl, rfl, by decide⟩

/-- C7 (amended): in every state reachable by a trace of preprocessed
requests, each participant's stored nonce equals their initial nonce plus
the number of signature-validated requests received from them (with the
initial nonce 0 of registration this is the count itself, matching
scenario 1's final nonce 3 after three validated requests); all other
record fields are unchanged by preprocessing. -/
theorem C7_nonce_invariant (cer : Ceremony) :
    ∀ (msgs : List SignedMessage) (reg : Registry) (pid : Nat) (p : Participant),
      reg pid = some p →
      (processRequests cer reg msgs) pid
        = some { p with nonce := p.nonce + validatedCount cer reg msgs pid } := by
  intro msgs
  induction msgs with
  | nil =>
    intro reg pid p h
    simpa [processRequests, validatedCount] using h
  | cons m ms ih =>
    intro reg pid p h
    rcases hres : (preprocess_request cer reg m).1 with e | pr
    · have hreg : (preprocess_request cer reg m).2 = reg :=
        preprocess_error_preserves cer reg m e hres
      have hcount : validatedCount cer reg (m :: ms) pid
          = validatedCount cer (preprocess_request cer reg m).2 ms pid := by
        simp [validatedCount, hres, exceptOk]
      have := ih (preprocess_request cer reg m).2 pid p (by rw [hreg]; exact h)
      simp only [processRequests, hcount]
      exact this
    · obtain ⟨q, hq, -, -, -, -, heff⟩ := preprocess_ok_effect cer reg m pr hres
      by_cases hid : m.identifier = pid
      · subst hid
        rw [h] at hq
        cases hq
        have hreg' : (preprocess_request cer reg m).2 m.identifier
            = some { p with nonce := p.nonce + 1 } := by
          rw [heff]
          simp [rset]
        have := ih (preprocess_request cer reg m).2 m.identifier
          { p with nonce := p.nonce + 1 } hreg'
        have hcount : validatedCount cer reg (m :: m :: ms).tail m.identifier
            = 1 + validatedCount cer (preprocess_request cer reg m).2 ms m.identifier := by
          simp [validatedCount, hres, exceptOk]
        simp only [List.tail_cons] at hcount
        simp only [processRequests, hcount]
        rw [this]
        congr 1
        simp
        omega
      · have hreg' : (preprocess_request cer reg m).2 pid = some p := by
          rw [heff]
          simp only [rset]
          rw [if_neg (fun hh => hid hh.symm)]
          exact h
        have := ih (preprocess_request cer reg m).2 pid p hreg'
        have hcount : validatedCount cer reg (m :: ms) pid
            = validatedCount cer (preprocess_request cer reg m).2 ms pid := by
          simp [validatedCount, hid]
        simp only [processRequests, hcount]
        exact this

/-- Witness for C7 at concrete inputs: after the single validated request
`msgT`, participant 1's record is their initial record with nonce
0 + validatedCount = 1. -/
theorem C7_nonce_invariant_witness :
    (processRequests cerT regT [msgT]) 1
      = some { verifyingKey := 5, nonce := 0 + validatedCount cerT regT [msgT] 1,
               priority := 1, contributed := false } :=
  C7_nonce_invariant cerT [msgT] regT 1
    { verifyingKey := 5, nonce := 0, priority := 1, contributed := false } (by rfl)

/-- Counterexample for C8 as stated: the round 1 proof file is present
but corrupt (and the round 1 state is perfectly fine), yet the verifier
does not abort: it treats the failed load as the end of files, completes
successfully, and extracts keys from the round 0 state. -/
theorem C8_corrupt_artifact_counterexample :
    filesC.proofFile 1 = FileRead.corrupt ∧
    (filesC.stateFile 1).des = some 11 ∧
    verify_ceremony_circuit cerT filesC 0 5 = some (Except.ok (10, 1)) :=
  ⟨rfl, rfl, rfl⟩

/-- C8 (amended): the verifier aborts with a `Serialization` error when
the STARTING round's state or challenge fails to deserialize, and aborts
with `BadRequest` when `verify_transform` fails in the loop; but a later
round whose proof or state fails to load — corrupt and missing files are
indistinguishable to `deserialize_from_file` — ends the loop as if the
files had run out, and keys are extracted from the last verified state. -/
theorem C8_verifier_abort_behavior (cer : Ceremony) (files : CircuitFiles) :
    (∀ start fuel, (files.stateFile start).des = none →
      verify_ceremony_circuit cer files start fuel
        = some (Except.error CeremonyError.UnexpectedSerialization)) ∧
    (∀ start fuel, (files.challengeFile start).des = none →
      verify_ceremony_circuit cer files start fuel
        = some (Except.error CeremonyError.UnexpectedSerialization)) ∧
    (∀ fuel chal st round,
      (files.proofFile (round + 1)).des = none ∨
        (files.stateFile (round + 1)).des = none →
      verifyLoop cer files (fuel + 1) chal st round
        = some (Except.ok (st, round + 1))) ∧
    (∀ fuel chal st round pr ns,
      (files.proofFile (round + 1)).des = some pr →
      (files.stateFile (round + 1)).des = some ns →
      cer.verifyCheck chal st ns pr = false →
      verifyLoop cer files (fuel + 1) chal st round
        = some (Except.error CeremonyError.BadRequest)) := by
  refine ⟨?_, ?_, ?_, ?_⟩
  · intro start fuel h
    simp [verify_ceremony_circuit, h]
  · intro start fuel h
    cases hs : (files.stateFile start).des with
    | none => simp [verify_ceremony_circuit, hs]
    | some st => simp [verify_ceremony_circuit, hs, h]
  · intro fuel chal st round h
    rcases h with h | h
    · unfold verifyLoop
      simp [h]
    · cases hp : (files.proofFile (round + 1)).des with
      | none =>
        unfold verifyLoop
        simp [hp]
      | some pr =>
        unfold verifyLoop
        simp [hp, h]
  · intro fuel chal st round pr ns hp hs hfail
    unfold verifyLoop
    simp [hp, hs, verify_transform, hfail]

/-- Witness for C8 at concrete inputs: starting at round 2 (whose state
file is missing) the verifier aborts with a `Serialization` error, while
the loop at round 0 ends immediately because the round 1 proof fails to
load, extracting keys from state 10. -/
theorem C8_verifier_abort_behavior_witness :
    verify_ceremony_circuit cerT filesC 2 3
      = some (Except.error CeremonyError.UnexpectedSerialization) ∧
    verifyLoop cerT filesC 4 20 10 0 = some (Except.ok (10, 1)) :=
  ⟨(C8_verifier_abort_behavior cerT filesC).1 2 3 (by rfl),
   (C8_verifier_abort_behavior cerT filesC).2.2.1 3 20 10 0 (Or.inl (by rfl))⟩

end TrustedSetup
